import Mathlib

/-!
Shallow embedding of the Naked command line application framework.

The dispatcher is embedded from `src/lib/Naked/app.py` (function `main`),
and the filesystem/stream helpers from `src/lib/Naked/toolshed/system.py`.
The command line classifier `Naked.commandline.Command` is not among the
sources, so its queries are modelled from the specification.
-/

set_option autoImplicit false

/-- Modelled from the spec: an option token is any element of the raw argument
vector beginning with a `-` character. -/
def dashToken (s : String) : Bool :=
  match s.data with
  | [] => false
  | c :: _ => c == '-'

/-- Modelled from the spec: `Naked.commandline.Command` is absent from the
sources.  The primary command is the first token of the raw argument vector
that does not begin with `-`; it is the empty string when no such token
exists (in particular on the empty argument vector). -/
def primaryOf : List String → String
  | [] => ""
  | a :: rest => if dashToken a then primaryOf rest else a

/-- Modelled from the spec: the secondary command is the token immediately
after the primary command when that token is also a non-option token; the
scan stops at the first option token, so it is otherwise empty. -/
def secondaryOf : List String → String
  | [] => ""
  | a :: rest =>
    if dashToken a then secondaryOf rest
    else
      match rest with
      | [] => ""
      | b :: _ => if dashToken b then "" else b

/-- Modelled from the spec: `command_suite_validates` returns true iff the
primary command is non-empty. -/
def command_suite_validates (argv : List String) : Bool :=
  primaryOf argv != ""

/-- Modelled from the spec: `positionalArgument` locates the first occurrence
of the token in the raw argument vector and returns the immediately following
element if present, else `none`. -/
def positionalArgument : List String → String → Option String
  | [], _ => none
  | a :: rest, tok => if a = tok then rest.head? else positionalArgument rest tok

/-- Modelled from the spec: `optionValue` is built on `positionalArgument`;
it returns the element following the first occurrence of the flag, and `none`
when the flag is absent or is the last element. -/
def optionValue (argv : List String) (flag : String) : Option String :=
  positionalArgument argv flag

/-- Modelled from the spec: `hasOption` is true iff the flag occurs literally
anywhere in the raw argument vector; when an argument is required, the
matched (first) occurrence must not be the last element. -/
def hasOption : List String → String → Bool → Bool
  | [], _, _ => false
  | a :: rest, flag, argument_required =>
    if a = flag then (if argument_required then !rest.isEmpty else true)
    else hasOption rest flag argument_required

/-- Modelled from the spec: a help request is signalled by `-h` or `--help`
anywhere in the raw arguments, or by the reserved primary command `help`. -/
def helpRequested (argv : List String) : Bool :=
  argv.contains "-h" || argv.contains "--help" || primaryOf argv == "help"

/-- Modelled from the spec: a usage request is signalled by `--usage` anywhere
in the raw arguments, or by the reserved primary command `usage`. -/
def usageRequested (argv : List String) : Bool :=
  argv.contains "--usage" || primaryOf argv == "usage"

/-- Modelled from the spec: a version request is signalled by `--version`
anywhere in the raw arguments, or by the reserved primary command `version`. -/
def versionRequested (argv : List String) : Bool :=
  argv.contains "--version" || primaryOf argv == "version"

/-- The branch of `main` in `src/lib/Naked/app.py` that a given argument
vector reaches: the failed-validation usage branch, one of the five primary
command handler branches, one of the three framework printer branches, or
the default match-failure branch. -/
inductive Branch where
  | usageExit
  | testCmd
  | dlCmd
  | locCmd
  | yamlCmd
  | bumpCmd
  | helpCmd
  | usageCmd
  | versionCmd
  | defaultFail
deriving DecidableEq

/-- The printer collaborators that `main` can invoke. -/
inductive Printer where
  | helpPrinter
  | usagePrinter
  | versionPrinter
deriving DecidableEq

/-- The control flow of `main` in `src/lib/Naked/app.py`: validation gate
first (`sys.exit(1)` aborts the rest), then the chain of string comparisons
on the primary command, then the framework help/usage/version tests, then
the default branch. -/
def dispatch (argv : List String) : Branch :=
  if !command_suite_validates argv then Branch.usageExit
  else if primaryOf argv = "test" then Branch.testCmd
  else if primaryOf argv = "dl" then Branch.dlCmd
  else if primaryOf argv = "loc" then Branch.locCmd
  else if primaryOf argv = "yaml" then Branch.yamlCmd
  else if primaryOf argv = "bump" then Branch.bumpCmd
  else if helpRequested argv then Branch.helpCmd
  else if usageRequested argv then Branch.usageCmd
  else if versionRequested argv then Branch.versionCmd
  else Branch.defaultFail

/-- The exit status `main` passes to `sys.exit` on each branch, `none` when
the branch does not call `sys.exit`. -/
def branchExit : Branch → Option Nat
  | Branch.usageExit => some 1
  | Branch.defaultFail => some 1
  | _ => none

/-- The printer collaborator `main` invokes on each branch, `none` when no
printer is invoked. -/
def branchPrinter : Branch → Option Printer
  | Branch.usageExit => some Printer.usagePrinter
  | Branch.helpCmd => some Printer.helpPrinter
  | Branch.usageCmd => some Printer.usagePrinter
  | Branch.versionCmd => some Printer.versionPrinter
  | _ => none

/-- The fixed message printed by `main` on each branch, `none` when the
branch prints no fixed message of its own. -/
def branchMessage : Branch → Option String
  | Branch.defaultFail =>
    some "Could not complete the command that you entered.  Please try again."
  | _ => none

/-- Whether a branch is one of the five primary command handler branches of
`main` in `src/lib/Naked/app.py`. -/
def isHandlerBranch : Branch → Bool
  | Branch.testCmd => true
  | Branch.dlCmd => true
  | Branch.locCmd => true
  | Branch.yamlCmd => true
  | Branch.bumpCmd => true
  | _ => false

/-- Environment for the `os` primitives consumed by
`src/lib/Naked/toolshed/system.py`: the current working directory and the
directory/file predicates and listings of the platform. -/
structure FS where
  cwdPath : String
  listdir : String → List String
  isfileAt : String → Bool
  isdirAt : String → Bool
  pathExists : String → Bool

/-- Python `os.path.join` restricted to two POSIX components: an absolute
second component replaces the first; otherwise a `/` separator is inserted
unless the first component is empty or already ends in `/`. -/
def osPathJoin (a b : String) : String :=
  if b.startsWith "/" then b
  else if a = "" || a.endsWith "/" then a ++ b
  else a ++ "/" ++ b

/-- `currentdir_to_basefile` decorator from system.py: the wrapper joins the
current working directory to the file name argument before calling the
original function. -/
def currentdir_to_basefile {α : Type} (func : String → α) (fs : FS) (file_name : String) : α :=
  func (osPathJoin fs.cwdPath file_name)

/-- `currentdir_firstargument` decorator from system.py: the wrapper ignores
the supplied directory argument and calls the original function on the
current working directory. -/
def currentdir_firstargument {α : Type} (func : String → α) (fs : FS) (_dir : String) : α :=
  func fs.cwdPath

/-- `currentdir_lastargument` decorator from system.py: the wrapper passes
the current working directory as the last argument of the original
function. -/
def currentdir_lastargument {α β : Type} (func : β → String → α) (fs : FS) (x : β) : α :=
  func x fs.cwdPath

/-- `fullpath` from system.py: the identity function decorated with
`currentdir_to_basefile`. -/
def fullpath (fs : FS) (file_name : String) : String :=
  currentdir_to_basefile (fun f => f) fs file_name

/-- `cwd` from system.py: the identity function (with default argument the
empty string) decorated with `currentdir_firstargument`. -/
def cwd (fs : FS) : String :=
  currentdir_firstargument (fun d => d) fs ""

/-- `file_exists` from system.py: delegates to `os.path.exists`. -/
def file_exists (fs : FS) (filepath : String) : Bool :=
  fs.pathExists filepath

/-- `is_file` from system.py: delegates to `os.path.isfile`. -/
def is_file (fs : FS) (filepath : String) : Bool :=
  fs.isfileAt filepath

/-- `dir_exists` from system.py: delegates to `os.path.exists`. -/
def dir_exists (fs : FS) (dirpath : String) : Bool :=
  fs.pathExists dirpath

/-- `is_dir` from system.py: delegates to `os.path.isdir`. -/
def is_dir (fs : FS) (filepath : String) : Bool :=
  fs.isdirAt filepath

/-- `list_all_files` from system.py: the entries of the directory whose join
with the directory is a regular file. -/
def list_all_files (fs : FS) (dir : String) : List String :=
  (fs.listdir dir).filter (fun name => fs.isfileAt (osPathJoin dir name))

/-- `list_filter_files` from system.py: the entries of the directory ending
in the extension, a leading period being added to the extension when the
caller omitted it. -/
def list_filter_files (fs : FS) (extension_filter : String) (dir : String) : List String :=
  let ext := if extension_filter.startsWith "." then extension_filter
             else "." ++ extension_filter
  (fs.listdir dir).filter (fun name => name.endsWith ext)

/-- `list_all_files_cwd` from system.py: `list_all_files` decorated with
`currentdir_firstargument` (the default argument is the empty string). -/
def list_all_files_cwd (fs : FS) : List String :=
  currentdir_firstargument (fun d => list_all_files fs d) fs ""

/-- `list_filter_files_cwd` from system.py: `list_filter_files` decorated
with `currentdir_lastargument`. -/
def list_filter_files_cwd (fs : FS) (extension_filter : String) : List String :=
  currentdir_lastargument (fun e d => list_filter_files fs e d) fs extension_filter

/-- A sample environment in which every path exists and is a regular file,
and no path is a directory. -/
def fileOnlyFS : FS where
  cwdPath := "/"
  listdir := fun _ => []
  isfileAt := fun _ => true
  isdirAt := fun _ => false
  pathExists := fun _ => true

/-- Python `str.rfind` for a single character over a list of characters: the
highest index at which the character occurs, `-1` when it does not occur. -/
def rfindChar (l : List Char) (c : Char) : Int :=
  match l with
  | [] => -1
  | a :: rest =>
    let r := rfindChar rest c
    if r ≥ 0 then r + 1 else if a = c then 0 else -1

/-- Python `posixpath.splitext`: split at the last `.` when it lies after the
last `/` and the characters between them are not all periods (so names made
of leading periods keep no extension); otherwise the extension is empty. -/
def splitext (p : List Char) : List Char × List Char :=
  let sepIndex : Int := rfindChar p '/'
  let dotIndex : Int := rfindChar p '.'
  if sepIndex < dotIndex then
    if ((p.take dotIndex.toNat).drop (sepIndex + 1).toNat).any (fun ch => ch != '.') then
      (p.take dotIndex.toNat, p.drop dotIndex.toNat)
    else (p, [])
  else (p, [])

/-- `file_extension` from system.py: returns `os.path.splitext(filepath)`
itself, the whole root and extension pair. -/
def file_extension (filepath : List Char) : List Char × List Char :=
  splitext filepath

/-- Observable outcome of a call into `stderr` from system.py: either a
normal return or a raised `SystemExit` carrying a code. -/
inductive StderrOutcome where
  | normal
  | systemExit (code : Int)
deriving DecidableEq

/-- `stderr` from system.py: writes the text to the standard error stream,
then raises `SystemExit(exit)` when the exit argument is truthy (a non-zero
integer); the result is the text written and the control outcome. -/
def stderr (text : String) (exitArg : Int) : String × StderrOutcome :=
  (text, if exitArg = 0 then StderrOutcome.normal else StderrOutcome.systemExit exitArg)

theorem positionalArgument_of_not_mem (l : List String) (tok : String) (h : tok ∉ l) :
    positionalArgument l tok = none := by
  induction l with
  | nil => rfl
  | cons a rest ih =>
    simp only [List.mem_cons, not_or] at h
    have ha : ¬(a = tok) := fun hh => h.1 hh.symm
    simp [positionalArgument, ha, ih h.2]

theorem positionalArgument_first (pre : List String) (tok : String) (rest : List String)
    (h : tok ∉ pre) : positionalArgument (pre ++ tok :: rest) tok = rest.head? := by
  induction pre with
  | nil => simp [positionalArgument]
  | cons a ps ih =>
    simp only [List.mem_cons, not_or] at h
    have ha : ¬(a = tok) := fun hh => h.1 hh.symm
    simp only [List.cons_append, positionalArgument, ha, if_false]
    exact ih h.2

theorem hasOption_of_not_mem (l : List String) (flag : String) (b : Bool) (h : flag ∉ l) :
    hasOption l flag b = false := by
  induction l with
  | nil => rfl
  | cons a rest ih =>
    simp only [List.mem_cons, not_or] at h
    have ha : ¬(a = flag) := fun hh => h.1 hh.symm
    simp [hasOption, ha, ih h.2]

theorem hasOption_first (pre : List String) (flag : String) (rest : List String) (b : Bool)
    (h : flag ∉ pre) :
    hasOption (pre ++ flag :: rest) flag b = (if b then !rest.isEmpty else true) := by
  induction pre with
  | nil => simp [hasOption]
  | cons a ps ih =>
    simp only [List.mem_cons, not_or] at h
    have ha : ¬(a = flag) := fun hh => h.1 hh.symm
    simp only [List.cons_append, hasOption, ha, if_false]
    exact ih h.2

theorem hasOption_false_iff (l : List String) (flag : String) :
    hasOption l flag false = true ↔ flag ∈ l := by
  induction l with
  | nil => simp [hasOption]
  | cons a rest ih =>
    by_cases ha : a = flag
    · subst ha
      simp [hasOption]
    · have ha' : ¬(flag = a) := fun hh => ha hh.symm
      simp [hasOption, ha, ha', ih]

theorem hasOption_true_eq_isSome (l : List String) (flag : String) :
    hasOption l flag true = (positionalArgument l flag).isSome := by
  induction l with
  | nil => rfl
  | cons a rest ih =>
    by_cases ha : a = flag
    · subst ha
      cases rest <;> simp [hasOption, positionalArgument]
    · simp [hasOption, positionalArgument, ha, ih]

/-- C1: `command_suite_validates` is true iff the primary command is
non-empty, and on the empty argument vector it is false with both the
primary and secondary command fields empty. -/
theorem command_suite_validates_spec (argv : List String) :
    (command_suite_validates argv = true ↔ primaryOf argv ≠ "") ∧
    command_suite_validates [] = false ∧ primaryOf [] = "" ∧ secondaryOf [] = "" := by
  refine ⟨?_, rfl, rfl, rfl⟩
  simp [command_suite_validates]

/-- C3: `optionValue` returns the element immediately following the first
occurrence of the flag when one exists, and `none` (not an error) when the
flag is absent from the raw arguments or is their last element. -/
theorem optionValue_spec (argv pre post : List String) (flag x : String) :
    (flag ∉ argv → optionValue argv flag = none) ∧
    (flag ∉ pre → optionValue (pre ++ flag :: x :: post) flag = some x) ∧
    (flag ∉ pre → optionValue (pre ++ [flag]) flag = none) := by
  refine ⟨fun h => positionalArgument_of_not_mem argv flag h, fun h => ?_, fun h => ?_⟩
  · rw [optionValue, positionalArgument_first pre flag (x :: post) h]
    rfl
  · rw [optionValue, positionalArgument_first pre flag [] h]
    rfl

theorem optionValue_spec_witness :
    optionValue ["-o", "val", "tail"] "-o" = some "val" ∧
    optionValue ["-x", "-o"] "-o" = none :=
  ⟨(optionValue_spec [] [] ["tail"] "-o" "val").2.1 (by decide),
   (optionValue_spec [] ["-x"] [] "-o" "val").2.2 (by decide)⟩

/-- C4: `hasOption` with no argument required is true iff the flag occurs
literally in the raw arguments; with an argument required it is further
false whenever the matched (first) occurrence is the last element. -/
theorem hasOption_spec (argv pre post : List String) (flag y : String) :
    (hasOption argv flag false = true ↔ flag ∈ argv) ∧
    (flag ∉ pre → hasOption (pre ++ [flag]) flag true = false) ∧
    (flag ∉ pre → hasOption (pre ++ flag :: y :: post) flag true = true) ∧
    (hasOption argv flag true = (optionValue argv flag).isSome) := by
  refine ⟨hasOption_false_iff argv flag, fun h => ?_, fun h => ?_,
    hasOption_true_eq_isSome argv flag⟩
  · rw [hasOption_first pre flag [] true h]
    rfl
  · rw [hasOption_first pre flag (y :: post) true h]
    rfl

theorem hasOption_spec_witness :
    hasOption ["-x", "-o"] "-o" true = false ∧
    hasOption ["-o", "v"] "-o" true = true :=
  ⟨(hasOption_spec [] ["-x"] [] "-o" "v").2.1 (by decide),
   (hasOption_spec [] [] [] "-o" "v").2.2.1 (by decide)⟩

/-- C2 counterexample: with primary command `test` and `--help` present, the
classifier reports a help request but the dispatcher takes the `test`
handler branch, so no printer is invoked. -/
theorem universal_flags_counterexample :
    helpRequested ["test", "--help"] = true ∧
    dispatch ["test", "--help"] = Branch.testCmd ∧
    branchPrinter (dispatch ["test", "--help"]) = none := by
  refine ⟨by decide, by decide, by decide⟩

/-- C2 (amended): when the classifier reports a help, usage or version
request, the dispatcher invokes the corresponding printer, provided command
suite validation succeeds, the primary command is none of the five handler
commands, and no earlier branch of the help-before-usage-before-version
chain also fires. -/
theorem universal_flags_dispatch (argv : List String)
    (h0 : command_suite_validates argv = true)
    (h1 : primaryOf argv ≠ "test") (h2 : primaryOf argv ≠ "dl")
    (h3 : primaryOf argv ≠ "loc") (h4 : primaryOf argv ≠ "yaml")
    (h5 : primaryOf argv ≠ "bump") :
    (helpRequested argv = true →
      branchPrinter (dispatch argv) = some Printer.helpPrinter) ∧
    (helpRequested argv = false → usageRequested argv = true →
      branchPrinter (dispatch argv) = some Printer.usagePrinter) ∧
    (helpRequested argv = false → usageRequested argv = false →
      versionRequested argv = true →
      branchPrinter (dispatch argv) = some Printer.versionPrinter) := by
  refine ⟨fun hh => ?_, fun hh hu => ?_, fun hh hu hv => ?_⟩
  · simp [dispatch, h0, h1, h2, h3, h4, h5, hh, branchPrinter]
  · simp [dispatch, h0, h1, h2, h3, h4, h5, hh, hu, branchPrinter]
  · simp [dispatch, h0, h1, h2, h3, h4, h5, hh, hu, hv, branchPrinter]

theorem universal_flags_dispatch_witness :
    branchPrinter (dispatch ["foo", "--help"]) = some Printer.helpPrinter :=
  (universal_flags_dispatch ["foo", "--help"] (by decide) (by decide) (by decide)
    (by decide) (by decide) (by decide)).1 (by decide)

/-- C5: whenever command suite validation fails, the dispatcher reaches the
usage branch, which prints the usage text and exits with status 1, and is
not one of the command handler branches. -/
theorem failed_validation_dispatch (argv : List String)
    (h : command_suite_validates argv = false) :
    dispatch argv = Branch.usageExit ∧
    branchPrinter Branch.usageExit = some Printer.usagePrinter ∧
    branchExit Branch.usageExit = some 1 ∧
    isHandlerBranch Branch.usageExit = false := by
  refine ⟨?_, rfl, rfl, rfl⟩
  simp [dispatch, h]

theorem failed_validation_dispatch_witness :
    dispatch [] = Branch.usageExit :=
  (failed_validation_dispatch [] (by decide)).1

/-- C6 counterexample: the empty argument vector has a primary command (the
empty string) matching none of the recognized command strings and requests
neither help, usage nor version, yet the dispatcher reaches the validation
usage branch, not the default failure branch. -/
theorem unrecognized_default_counterexample :
    primaryOf [] ≠ "test" ∧ primaryOf [] ≠ "dl" ∧ primaryOf [] ≠ "loc" ∧
    primaryOf [] ≠ "yaml" ∧ primaryOf [] ≠ "bump" ∧
    helpRequested [] = false ∧ usageRequested [] = false ∧
    versionRequested [] = false ∧
    dispatch [] = Branch.usageExit ∧ dispatch [] ≠ Branch.defaultFail := by
  refine ⟨by decide, by decide, by decide, by decide, by decide, by decide,
    by decide, by decide, by decide, by decide⟩

/-- C6 (amended): for every argument vector on which command suite
validation succeeds, whose primary command matches none of the recognized
command strings, and which requests neither help, usage nor version, the
dispatcher falls through to the default branch, which prints the fixed
failure message and exits with status 1. -/
theorem unrecognized_default_branch (argv : List String)
    (h0 : command_suite_validates argv = true)
    (h1 : primaryOf argv ≠ "test") (h2 : primaryOf argv ≠ "dl")
    (h3 : primaryOf argv ≠ "loc") (h4 : primaryOf argv ≠ "yaml")
    (h5 : primaryOf argv ≠ "bump")
    (hh : helpRequested argv = false) (hu : usageRequested argv = false)
    (hv : versionRequested argv = false) :
    dispatch argv = Branch.defaultFail ∧
    branchExit Branch.defaultFail = some 1 ∧
    branchMessage Branch.defaultFail =
      some "Could not complete the command that you entered.  Please try again." := by
  refine ⟨?_, rfl, rfl⟩
  simp [dispatch, h0, h1, h2, h3, h4, h5, hh, hu, hv]

theorem unrecognized_default_branch_witness :
    dispatch ["foo"] = Branch.defaultFail :=
  (unrecognized_default_branch ["foo"] (by decide) (by decide) (by decide)
    (by decide) (by decide) (by decide) (by decide) (by decide) (by decide)).1

/-- C7: each current-directory wrapper from system.py agrees with its
explicit-parameter helper applied to the current working directory. -/
theorem cwd_wrappers_spec (fs : FS) (extension_filter file_name : String) :
    list_all_files_cwd fs = list_all_files fs fs.cwdPath ∧
    list_filter_files_cwd fs extension_filter =
      list_filter_files fs extension_filter fs.cwdPath ∧
    cwd fs = fs.cwdPath ∧
    fullpath fs file_name = osPathJoin fs.cwdPath file_name :=
  ⟨rfl, rfl, rfl, rfl⟩

theorem splitext_append (p : List Char) : (splitext p).1 ++ (splitext p).2 = p := by
  unfold splitext
  by_cases h1 : rfindChar p '/' < rfindChar p '.'
  · by_cases h2 : ((p.take (rfindChar p '.').toNat).drop (rfindChar p '/' + 1).toNat).any
        (fun ch => ch != '.') = true
    · simp only [h1, if_true, h2, if_pos]
      exact List.take_append_drop _ p
    · simp [h1, h2]
  · simp [h1]

/-- C8: `file_extension` returns the whole root and extension pair produced
by `os.path.splitext` (whose parts concatenate back to the path), not the
extension string alone. -/
theorem file_extension_spec (fp : List Char) :
    file_extension fp = splitext fp ∧
    (file_extension fp).1 ++ (file_extension fp).2 = fp ∧
    file_extension ("naked.py".toList) = ("naked".toList, ".py".toList) :=
  ⟨rfl, splitext_append fp, by decide⟩

/-- C9: `dir_exists` tests bare path existence, exactly as `file_exists`
does, and so is true even in an environment where every existing path is a
regular file and none is a directory; only `is_dir` consults the directory
predicate. -/
theorem dir_exists_spec (fs : FS) (p : String) :
    dir_exists fs p = fs.pathExists p ∧
    dir_exists fs p = file_exists fs p ∧
    is_dir fs p = fs.isdirAt p ∧
    dir_exists fileOnlyFS p = true ∧
    is_file fileOnlyFS p = true ∧
    is_dir fileOnlyFS p = false :=
  ⟨rfl, rfl, rfl, rfl, rfl, rfl⟩

/-- C10: `stderr` yields the text written to the standard error stream, and
raises `SystemExit` carrying the exit argument iff that argument is
non-zero; with the default argument `0` it returns normally. -/
theorem stderr_spec (text : String) (e : Int) :
    (stderr text e).1 = text ∧
    ((stderr text e).2 = StderrOutcome.systemExit e ↔ e ≠ 0) ∧
    stderr text 0 = (text, StderrOutcome.normal) := by
  refine ⟨rfl, ?_, rfl⟩
  by_cases h : e = 0
  · subst h
    simp [stderr]
  · simp [stderr, h]
